import Mathlib

/-!
Verification development for the combat & progression core of the
`comp645-team1-game` dungeon crawler.

Shallow embedding conventions:
* Python `int` is embedded as `Int` (unbounded in Python).
* Python `float` configuration weights and `random.random()` draws are
  embedded as `ℚ`; the loot weights are small decimal literals and every
  property proved here depends only on their exact arithmetic, not on
  binary rounding.
* Mutating methods become functions returning the updated value (paired
  with the Python return value where the method returns one).
* The injected `RandomProvider` is embedded by passing each consumed draw
  explicitly: a `random()` draw as a rational, a `choice(seq)` draw as an
  index into the sequence, a `randint(a, b)` draw as an integer.
* Fallible code (Python `raise` / `KeyError`) returns `Option`.

Sources embedded: `src/models.py`, `src/config.py`, `src/utils.py`,
`src/drop_calculator.py`, `src/combat_engine.py`.
-/

namespace Game

/-! ## config.py -/

def PLAYER_MAX_HEALTH : Int := 30

def PLAYER_BASE_STRENGTH : Int := 5

def PLAYER_BASE_DEFENSE : Int := 1

def HOLY_SMITE_BASE_DAMAGE : Int := 7

def SWORD_SLASH_BASE_DAMAGE : Int := 9

def SHIELD_BASH_BASE_DAMAGE : Int := 6

def WEAKNESS_BONUS_DAMAGE : Int := 5

def ARMOR_DEFENSE_BONUS_PER_PIECE : Int := 2

def FLEE_SUCCESS_CHANCE : ℚ := 1/2

/-- config.DROP_WEIGHTS["NO_ITEM"] = 0.4 -/
def DROP_WEIGHT_NO_ITEM : ℚ := 2/5

/-- config.DROP_WEIGHTS["HEALTH_POTION"] = 0.3 -/
def DROP_WEIGHT_HEALTH_POTION : ℚ := 3/10

/-- config.DROP_WEIGHTS["ESCAPE_SCROLL"] = 0.2 -/
def DROP_WEIGHT_ESCAPE_SCROLL : ℚ := 1/5

/-- config.DROP_WEIGHTS["ARMOR"] = 0.1 -/
def DROP_WEIGHT_ARMOR : ℚ := 1/10

/-! ## models.py: enumerations -/

/-- models.Action -/
inductive Action where
  | USE_POTION
  | FLEE
  | SWORD_SLASH
  | SHIELD_BASH
  | HOLY_SMITE
deriving DecidableEq, Fintype

/-- models.Weakness -/
inductive Weakness where
  | SWORD_SLASH
  | SHIELD_BASH
  | HOLY_SMITE
deriving DecidableEq, Fintype

/-- models.DropResult -/
inductive DropResult where
  | NO_ITEM
  | HEALTH_POTION
  | ESCAPE_SCROLL
  | SHIELD
  | SWORD
  | HELM
  | PAULDRONS
  | CUIRASS
  | GAUNTLETS
  | LEG_GUARDS
  | BOOTS
deriving DecidableEq, Fintype

/-- models.DropResult.unique_gear: all unique gear items, in source order. -/
def DropResult.unique_gear : List DropResult :=
  [DropResult.SHIELD, DropResult.SWORD, DropResult.HELM, DropResult.PAULDRONS,
   DropResult.CUIRASS, DropResult.GAUNTLETS, DropResult.LEG_GUARDS, DropResult.BOOTS]

/-! ## models.py: Inventory -/

/-- models.Inventory -/
structure Inventory where
  num_potions : Int
  num_escape_scrolls : Int
deriving DecidableEq

/-- models.Inventory.add_potion (the source default argument is amount=1). -/
def Inventory.add_potion (inv : Inventory) (amount : Int) : Inventory :=
  { inv with num_potions := inv.num_potions + max 0 amount }

/-- models.Inventory.remove_potion: returns the updated inventory and the Bool result. -/
def Inventory.remove_potion (inv : Inventory) (amount : Int) : Inventory × Bool :=
  if inv.num_potions ≥ amount then
    ({ inv with num_potions := inv.num_potions - amount }, true)
  else
    (inv, false)

/-- models.Inventory.add_escape_scroll -/
def Inventory.add_escape_scroll (inv : Inventory) (amount : Int) : Inventory :=
  { inv with num_escape_scrolls := inv.num_escape_scrolls + max 0 amount }

/-- models.Inventory.remove_escape_scroll -/
def Inventory.remove_escape_scroll (inv : Inventory) (amount : Int) : Inventory × Bool :=
  if inv.num_escape_scrolls ≥ amount then
    ({ inv with num_escape_scrolls := inv.num_escape_scrolls - amount }, true)
  else
    (inv, false)

/-! ## models.py: Player (is-an Actor) -/

/-- models.Player: Actor fields (max_health, strength, health) plus player fields. -/
structure Player where
  max_health : Int
  strength : Int
  health : Int
  base_defense : Int
  inventory : Inventory
  owned_armor : Finset DropResult
  has_shield : Bool
  has_sword : Bool
deriving DecidableEq

/-- models.Actor.take_damage as inherited by Player: returns the mutated player
and the actual damage taken. -/
def Player.take_damage (p : Player) (incoming_damage defense : Int) : Player × Int :=
  let damage_after_defense := max 0 (incoming_damage - max 0 defense)
  ({ p with health := max 0 (p.health - damage_after_defense) }, damage_after_defense)

/-- models.Actor.is_alive as inherited by Player. -/
def Player.is_alive (p : Player) : Bool := p.health > 0

/-- models.Player.get_defense -/
def Player.get_defense (p : Player) : Int :=
  let defense_from_armor := (p.owned_armor.card : Int) * ARMOR_DEFENSE_BONUS_PER_PIECE
  let defense_from_shield : Int := if p.has_shield then 3 else 0
  p.base_defense + defense_from_armor + defense_from_shield

/-- models.Player.use_potion: consumes one potion and fully heals when a potion
is available; returns the mutated player and the Bool result. -/
def Player.use_potion (p : Player) : Player × Bool :=
  match p.inventory.remove_potion 1 with
  | (inv2, true) => ({ p with inventory := inv2, health := p.max_health }, true)
  | (inv2, false) => ({ p with inventory := inv2 }, false)

/-- models.Player.pray_for_restoration -/
def Player.pray_for_restoration (p : Player) : Player :=
  { p with health := p.max_health }

/-- models.Player.attempt_flee: an escape scroll guarantees success (consuming
the scroll, no draw taken); otherwise success iff the injected random() draw
`flee_roll` is `< FLEE_SUCCESS_CHANCE`. -/
def Player.attempt_flee (p : Player) (flee_roll : ℚ) : Player × Bool :=
  match p.inventory.remove_escape_scroll 1 with
  | (inv2, true) => ({ p with inventory := inv2 }, true)
  | (_, false) => (p, decide (flee_roll < FLEE_SUCCESS_CHANCE))

/-- models.Player.holy_smite -/
def Player.holy_smite (p : Player) : Int := HOLY_SMITE_BASE_DAMAGE + p.strength

/-- models.Player.sword_slash -/
def Player.sword_slash (p : Player) : Int := SWORD_SLASH_BASE_DAMAGE + p.strength

/-- models.Player.shield_bash -/
def Player.shield_bash (p : Player) : Int := SHIELD_BASH_BASE_DAMAGE + p.strength

/-- models.Player.abilities: the equipment-gated ability map, as a partial map
from actions to the damage value the mapped callable would return. -/
def Player.abilities (p : Player) (a : Action) : Option Int :=
  match a with
  | Action.HOLY_SMITE => some p.holy_smite
  | Action.SWORD_SLASH => if p.has_sword then some p.sword_slash else none
  | Action.SHIELD_BASH => if p.has_shield then some p.shield_bash else none
  | _ => none

/-! ## models.py: Monster -/

/-- models.Monster -/
structure Monster where
  max_health : Int
  strength : Int
  health : Int
  name : String
  weaknesses : List Weakness
  is_boss : Bool
  item_drop : Option DropResult
deriving DecidableEq

/-- models.Actor.take_damage as inherited by Monster. -/
def Monster.take_damage (m : Monster) (incoming_damage defense : Int) : Monster × Int :=
  let damage_after_defense := max 0 (incoming_damage - max 0 defense)
  ({ m with health := max 0 (m.health - damage_after_defense) }, damage_after_defense)

/-- models.Actor.is_alive as inherited by Monster. -/
def Monster.is_alive (m : Monster) : Bool := m.health > 0

/-- models.Monster.attack. In the source the damage variance is drawn with the
module-level `random.randint(0, 2)` — the GLOBAL random module, not the
injected RandomProvider — so the draw is passed here as a separate
`global_variance` argument, distinct from the injected draws. -/
def Monster.attack (m : Monster) (global_variance : Int) : Int :=
  m.strength + global_variance

/-- models.Monster.apply_weakness_bonus local ACTION_WEAKNESS_MAP, which is the
same action-to-weakness mapping as combat_engine.CombatEngine.ACTION_TO_WEAKNESS. -/
def ACTION_WEAKNESS_MAP (a : Action) : Option Weakness :=
  match a with
  | Action.HOLY_SMITE => some Weakness.HOLY_SMITE
  | Action.SWORD_SLASH => some Weakness.SWORD_SLASH
  | Action.SHIELD_BASH => some Weakness.SHIELD_BASH
  | _ => none

/-- models.Monster.apply_weakness_bonus -/
def Monster.apply_weakness_bonus (m : Monster) (a : Action) (base_damage : Int) : Int :=
  match ACTION_WEAKNESS_MAP a with
  | some matching_weakness =>
      if matching_weakness ∈ m.weaknesses then base_damage + WEAKNESS_BONUS_DAMAGE
      else base_damage
  | none => base_damage

/-! ## utils.py: weighted random selection

The function `select_weighted_random` also appears, textually identical, in
`src/systems.py`; one embedding covers both copies. -/

/-- models.WeightedOption -/
structure WeightedOption where
  label : String
  weight : ℚ
deriving DecidableEq

/-- The accumulation loop of utils.select_weighted_random: walk the options in
list order accumulating weights, returning the first label whose cumulative
weight is reached by `random_value`; if the loop falls through, return the
fallback (the last option's label in the source). -/
def selectLoop (options : List WeightedOption) (random_value cumulative_weight : ℚ)
    (fallback : String) : String :=
  match options with
  | [] => fallback
  | option :: rest =>
      let cumulative2 := cumulative_weight + option.weight
      if random_value ≤ cumulative2 then option.label
      else selectLoop rest random_value cumulative2 fallback

/-- utils.select_weighted_random (= systems.select_weighted_random).
`r` is the injected random() draw. The source raises ValueError on an empty
options list: embedded as `none`. -/
def select_weighted_random (options : List WeightedOption) (r : ℚ) : Option String :=
  match options.getLast? with
  | none => none
  | some fallback_option =>
      let total_weight := (options.map WeightedOption.weight).sum
      if total_weight ≤ 0 then some fallback_option.label
      else
        let random_value := r * total_weight
        some (selectLoop options random_value 0 fallback_option.label)

/-- Modelled from the spec's words (§4.3 weighted random selection): the first
label in list order whose cumulative weight is `≥ r`, starting from an
accumulated weight `cumulative`; `none` when no option reaches `r`. Used only
to compare the source algorithm against the spec's description. -/
def firstLabelWithCumGe (options : List WeightedOption) (cumulative r : ℚ) : Option String :=
  match options with
  | [] => none
  | option :: rest =>
      if cumulative + option.weight ≥ r then some option.label
      else firstLabelWithCumGe rest (cumulative + option.weight) r

/-! ## drop_calculator.py -/

/-- drop_calculator.LootBucket -/
structure LootBucket where
  category : String
  weight : ℚ
deriving DecidableEq

/-- drop_calculator.LootBucket.create_buckets. The `player` argument is kept
for fidelity with the source signature; the source never reads it. -/
def LootBucket.create_buckets (player : Player) (remaining_armor : List DropResult) :
    List LootBucket :=
  let weight_no_item := DROP_WEIGHT_NO_ITEM
  let weight_health_potion := DROP_WEIGHT_HEALTH_POTION
  let weight_escape_scroll := DROP_WEIGHT_ESCAPE_SCROLL
  let weight_armor := if remaining_armor.isEmpty then 0 else DROP_WEIGHT_ARMOR
  let weight_no_item :=
    if remaining_armor.isEmpty then weight_no_item + DROP_WEIGHT_ARMOR else weight_no_item
  [LootBucket.mk "NO_ITEM" weight_no_item,
   LootBucket.mk "HEALTH_POTION" weight_health_potion,
   LootBucket.mk "ESCAPE_SCROLL" weight_escape_scroll,
   LootBucket.mk "ARMOR" weight_armor]

/-- utils.RandomProvider.choice on a nonempty sequence: the injected draw is
embedded as an arbitrary index `idx`, reduced modulo the length, so that every
possible provider output (= every element) is covered. -/
def RandomProvider.choice {α : Type} (seq : List α) (h : seq ≠ []) (idx : Nat) : α :=
  seq.get ⟨idx % seq.length, Nat.mod_lt _ (List.length_pos.mpr h)⟩

/-- The armor filter in drop_calculator.DropCalculator.roll_item_drop:
keep items that are neither SHIELD nor SWORD. -/
def armorFilter (item : DropResult) : Bool :=
  item != DropResult.SHIELD && item != DropResult.SWORD

/-- drop_calculator.DropCalculator.roll_item_drop. The instance state
`self._remaining_gear` is passed in as `gear` and the updated state is
returned alongside the DropResult. `inp_r` is the random() draw consumed by
select_weighted_random and `inp_idx` the choice draw for the armor pick. -/
def DropCalculator.roll_item_drop (gear : List DropResult) (player : Player)
    (inp_r : ℚ) (inp_idx : Nat) : DropResult × List DropResult :=
  let remaining_armor := gear.filter armorFilter
  let loot_buckets := LootBucket.create_buckets player remaining_armor
  let weighted_options := loot_buckets.map (fun b => WeightedOption.mk b.category b.weight)
  let chosen_bucket := select_weighted_random weighted_options inp_r
  if chosen_bucket = some "NO_ITEM" then (DropResult.NO_ITEM, gear)
  else if chosen_bucket = some "HEALTH_POTION" then (DropResult.HEALTH_POTION, gear)
  else if chosen_bucket = some "ESCAPE_SCROLL" then (DropResult.ESCAPE_SCROLL, gear)
  else if h : chosen_bucket = some "ARMOR" ∧ remaining_armor ≠ [] then
    let armor_piece := RandomProvider.choice remaining_armor h.2 inp_idx
    (armor_piece, gear.erase armor_piece)
  else (DropResult.NO_ITEM, gear)

/-- drop_calculator.DropCalculator.get_drop_for_monster, with the instance
state passed and returned as in `roll_item_drop`. -/
def DropCalculator.get_drop_for_monster (gear : List DropResult) (defeated_count : Int)
    (player : Player) (inp_r : ℚ) (inp_idx : Nat) : DropResult × List DropResult :=
  if defeated_count == 0 && !player.has_shield && gear.contains DropResult.SHIELD then
    (DropResult.SHIELD, gear.erase DropResult.SHIELD)
  else if defeated_count == 2 && !player.has_sword && gear.contains DropResult.SWORD then
    (DropResult.SWORD, gear.erase DropResult.SWORD)
  else
    DropCalculator.roll_item_drop gear player inp_r inp_idx

/-- One call on a DropCalculator instance, for sequencing claims: either a
roll_item_drop call or a get_drop_for_monster call, each carrying the player
state it is invoked with and the Random Source draws it may consume. -/
inductive DropOp where
  | roll (player : Player) (inp_r : ℚ) (inp_idx : Nat)
  | getDrop (defeated_count : Int) (player : Player) (inp_r : ℚ) (inp_idx : Nat)

/-- Execute one DropOp against the calculator state. -/
def DropCalculator.step (gear : List DropResult) (op : DropOp) : DropResult × List DropResult :=
  match op with
  | DropOp.roll player inp_r inp_idx => DropCalculator.roll_item_drop gear player inp_r inp_idx
  | DropOp.getDrop d player inp_r inp_idx =>
      DropCalculator.get_drop_for_monster gear d player inp_r inp_idx

/-- Execute a sequence of DropOps, collecting the returned DropResults and the
final calculator state. -/
def DropCalculator.run (gear : List DropResult) : List DropOp → List DropResult × List DropResult
  | [] => ([], gear)
  | op :: ops =>
      let s := DropCalculator.step gear op
      let rest := DropCalculator.run s.2 ops
      (s.1 :: rest.1, rest.2)

/-! ## combat_engine.py -/

/-- combat_engine.CombatEngine.calculate_player_damage -/
def CombatEngine.calculate_player_damage (a : Action) (p : Player) (m : Monster) : Int :=
  match p.abilities a with
  | none => 0
  | some base => m.apply_weakness_bonus a base

/-- The result dictionary of combat_engine.CombatEngine.execute_combat_turn,
as a tagged variant per branch. The source dict's `non_damage_action` key is
true exactly for `potionUsed` and `fled`; `attacked` carries the keys of the
damage-action branch. -/
inductive TurnOutcome where
  | potionUsed
  | fled (flee_succeeded : Bool)
  | attacked (player_damage_dealt : Int) (monster_died : Bool) (is_weakness_hit : Bool)
      (monster_retaliation_damage : Option Int) (player_health_after : Option Int)
deriving DecidableEq

/-- combat_engine.CombatEngine.execute_combat_turn, returning the outcome and
the (possibly mutated) player and monster. `flee_roll` is the injected
random() draw a flee attempt may consume; `global_variance` is the draw the
monster's retaliation takes from the GLOBAL `random.randint(0, 2)` (see
`Monster.attack`). A damage action whose key is missing from the ability map
raises KeyError in the source (`ability_map[selected_action]`): embedded as
`none`; the presentation layer only offers legal actions, so this is
unreachable in the game loop. The USE_POTION branch only narrates
(`describe_potion_use`) and returns: no potion is consumed and no healing
happens there, `Player.use_potion` is never invoked. -/
def CombatEngine.execute_combat_turn (p : Player) (m : Monster) (selected_action : Action)
    (flee_roll : ℚ) (global_variance : Int) : Option (TurnOutcome × Player × Monster) :=
  match selected_action with
  | Action.USE_POTION => some (TurnOutcome.potionUsed, p, m)
  | Action.FLEE =>
      let fled := p.attempt_flee flee_roll
      some (TurnOutcome.fled fled.2, fled.1, m)
  | a =>
      match p.abilities a with
      | none => none
      | some base_damage =>
          let final_damage := CombatEngine.calculate_player_damage a p m
          let is_weakness :=
            match ACTION_WEAKNESS_MAP a with
            | some matching_weakness =>
                decide (matching_weakness ∈ m.weaknesses) && decide (final_damage > base_damage)
            | none => false
          let hit := m.take_damage final_damage 0
          let monster_died := !hit.1.is_alive
          if monster_died then
            some (TurnOutcome.attacked hit.2 true is_weakness none none, p, hit.1)
          else
            let monster_attack_damage := hit.1.attack global_variance
            let retal := p.take_damage monster_attack_damage p.get_defense
            some (TurnOutcome.attacked hit.2 false is_weakness (some retal.2)
                    (some retal.1.health), retal.1, hit.1)

/-! ## Health-mutation operations (for the health-bounds invariant)

The operations that touch an actor's health in models.py: damage application
(Actor.take_damage, with arbitrary integer raw damage and defense) and the
player's healing operations (Player.use_potion, Player.pray_for_restoration). -/

inductive HealthOp where
  | damage (raw defense : Int)
  | usePotion
  | pray

/-- Apply one health-mutating operation to the player. -/
def Player.applyHealthOp (p : Player) (op : HealthOp) : Player :=
  match op with
  | HealthOp.damage raw defense => (p.take_damage raw defense).1
  | HealthOp.usePotion => (p.use_potion).1
  | HealthOp.pray => p.pray_for_restoration

/-- Apply a sequence of health-mutating operations. -/
def Player.applyHealthOps (p : Player) (ops : List HealthOp) : Player :=
  ops.foldl Player.applyHealthOp p

/-! ## Concrete states used by counterexamples and witnesses -/

/-- A freshly created player as game_engine.GameEngine builds it (before the
starting-injury assignment), with the stats of config.py. -/
def basePlayer : Player :=
  { max_health := PLAYER_MAX_HEALTH, strength := PLAYER_BASE_STRENGTH,
    health := PLAYER_MAX_HEALTH, base_defense := PLAYER_BASE_DEFENSE,
    inventory := { num_potions := 0, num_escape_scrolls := 0 },
    owned_armor := ∅, has_shield := false, has_sword := false }

/-- An injured player holding one potion: the state in which the UsePotion
action is offered by get_available_actions. -/
def injuredPotionPlayer : Player :=
  { basePlayer with
    health := 1
    inventory := { num_potions := 1, num_escape_scrolls := 0 } }

/-- A tough monster (survives one Holy Smite) for retaliation scenarios. -/
def toughMonster : Monster :=
  { max_health := 100, strength := 5, health := 100, name := "Skeleton",
    weaknesses := [], is_boss := false, item_drop := none }

/-- A monster at 1 health: any damage action kills it exactly. -/
def fragileMonster : Monster :=
  { max_health := 15, strength := 5, health := 1, name := "Goblin Bandit",
    weaknesses := [], is_boss := false, item_drop := none }

/-- The fragile monster after taking a Holy Smite hit (health clamped to 0). -/
def fragileMonsterDead : Monster := { fragileMonster with health := 0 }

/-! ## Claim theorems -/

/-- C6: for every actor (player or monster), every integer rawDamage and every
integer defense, including negatives, damage application computes
reduced = max(0, rawDamage − max(0, defense)), sets
health = max(0, health − reduced), returns reduced, and (being a total
function) never raises an error; all other fields are unchanged. -/
theorem C6_apply_damage_formula (p : Player) (m : Monster) (rawDamage defense : Int) :
    Player.take_damage p rawDamage defense
      = ({ p with health := max 0 (p.health - max 0 (rawDamage - max 0 defense)) },
         max 0 (rawDamage - max 0 defense))
    ∧ Monster.take_damage m rawDamage defense
      = ({ m with health := max 0 (m.health - max 0 (rawDamage - max 0 defense)) },
         max 0 (rawDamage - max 0 defense)) :=
  ⟨rfl, rfl⟩

/-- C1 (code bug): the USE_POTION branch of execute_combat_turn only narrates:
it returns the player and monster UNCHANGED for every state — no potion is
consumed and health is not restored — although the never-invoked
Player.use_potion (second and third conjuncts, evaluated on an injured player
holding one potion) implements exactly the consume-one-and-fully-heal the
claim describes. No retaliation occurs (the outcome is the non-damage one). -/
theorem C1_potion_turn_consumes_and_heals_nothing :
    (∀ (p : Player) (m : Monster) (r : ℚ) (g : Int),
        CombatEngine.execute_combat_turn p m Action.USE_POTION r g
          = some (TurnOutcome.potionUsed, p, m))
    ∧ (injuredPotionPlayer.use_potion).1.inventory.num_potions = 0
    ∧ (injuredPotionPlayer.use_potion).1.health = injuredPotionPlayer.max_health := by
  refine ⟨fun p m r g => rfl, ?_, ?_⟩ <;> decide

/-- C5 (code bug): the monster retaliation variance is drawn from the global
`random.randint(0, 2)`, not from the injected Random Source: two executions of
the same turn with identical injected draws (flee_roll = 0 in both) but
different global-RNG outputs (0 vs 2) produce different states. -/
theorem C5_retaliation_variance_is_global :
    CombatEngine.execute_combat_turn basePlayer toughMonster Action.HOLY_SMITE 0 0
      ≠ CombatEngine.execute_combat_turn basePlayer toughMonster Action.HOLY_SMITE 0 2 := by
  decide

/-- C4: on a fresh DropCalculator, get_drop_for_monster(0, player-without-shield)
returns Shield for every Random Source output, and get_drop_for_monster(2,
player-without-sword) (Sword still remaining, as it is on a fresh instance)
returns Sword for every Random Source output. -/
theorem C4_scripted_unlocks (player1 player2 : Player) (r1 r2 : ℚ) (i1 i2 : Nat)
    (h1 : player1.has_shield = false) (h2 : player2.has_sword = false) :
    (DropCalculator.get_drop_for_monster DropResult.unique_gear 0 player1 r1 i1).1
        = DropResult.SHIELD
    ∧ (DropCalculator.get_drop_for_monster DropResult.unique_gear 2 player2 r2 i2).1
        = DropResult.SWORD := by
  constructor
  · simp [DropCalculator.get_drop_for_monster, h1, DropResult.unique_gear]
  · simp [DropCalculator.get_drop_for_monster, h2, DropResult.unique_gear]

/-- Witness for C4: the hypotheses hold for the fresh base player, and the
theorem applies. -/
theorem C4_scripted_unlocks_witness :
    basePlayer.has_shield = false ∧ basePlayer.has_sword = false
    ∧ ((DropCalculator.get_drop_for_monster DropResult.unique_gear 0 basePlayer 0 0).1
          = DropResult.SHIELD
      ∧ (DropCalculator.get_drop_for_monster DropResult.unique_gear 2 basePlayer 0 0).1
          = DropResult.SWORD) :=
  ⟨rfl, rfl, C4_scripted_unlocks basePlayer basePlayer 0 0 0 0 rfl rfl⟩

/-! ## Case analysis of roll_item_drop -/

theorem RandomProvider.choice_mem {α : Type} (seq : List α) (h : seq ≠ []) (idx : Nat) :
    RandomProvider.choice seq h idx ∈ seq :=
  List.get_mem _ _ _

/-- Every call to roll_item_drop either returns a consumable (or NO_ITEM) and
leaves the gear state unchanged, or returns an element of the armor filter of
the gear state and erases it. -/
theorem roll_item_drop_cases (gear : List DropResult) (player : Player) (r : ℚ) (idx : Nat) :
    ((DropCalculator.roll_item_drop gear player r idx).1
        ∈ [DropResult.NO_ITEM, DropResult.HEALTH_POTION, DropResult.ESCAPE_SCROLL]
      ∧ (DropCalculator.roll_item_drop gear player r idx).2 = gear)
    ∨ ((DropCalculator.roll_item_drop gear player r idx).1 ∈ gear.filter armorFilter
      ∧ (DropCalculator.roll_item_drop gear player r idx).2
          = gear.erase (DropCalculator.roll_item_drop gear player r idx).1) := by
  simp only [DropCalculator.roll_item_drop]
  split_ifs with h1 h2 h3 h4
  · exact Or.inl ⟨by simp, rfl⟩
  · exact Or.inl ⟨by simp, rfl⟩
  · exact Or.inl ⟨by simp, rfl⟩
  · exact Or.inr ⟨RandomProvider.choice_mem _ h4.2 idx, rfl⟩
  · exact Or.inl ⟨by simp, rfl⟩

/-- C10: roll_item_drop never returns Shield or Sword: for every calculator
state, player and Random Source output, its result is NoItem, HealthPotion,
EscapeScroll, or one of the six armor pieces; Shield and Sword can only come
from the scripted branch of get_drop_for_monster. -/
theorem C10_roll_never_returns_shield_or_sword (gear : List DropResult) (player : Player)
    (r : ℚ) (idx : Nat) :
    (DropCalculator.roll_item_drop gear player r idx).1
      ∈ [DropResult.NO_ITEM, DropResult.HEALTH_POTION, DropResult.ESCAPE_SCROLL,
         DropResult.HELM, DropResult.PAULDRONS, DropResult.CUIRASS, DropResult.GAUNTLETS,
         DropResult.LEG_GUARDS, DropResult.BOOTS] := by
  have key : ∀ d : DropResult,
      d ∈ ([DropResult.NO_ITEM, DropResult.HEALTH_POTION, DropResult.ESCAPE_SCROLL] :
            List DropResult) ∨ armorFilter d = true →
      d ∈ [DropResult.NO_ITEM, DropResult.HEALTH_POTION, DropResult.ESCAPE_SCROLL,
           DropResult.HELM, DropResult.PAULDRONS, DropResult.CUIRASS, DropResult.GAUNTLETS,
           DropResult.LEG_GUARDS, DropResult.BOOTS] := by decide
  rcases roll_item_drop_cases gear player r idx with ⟨hmem, _⟩ | ⟨hmem, _⟩
  · exact key _ (Or.inl hmem)
  · exact key _ (Or.inr (List.of_mem_filter hmem))

/-- The six armor pieces (the unique gear excluding Shield and Sword). -/
def armorPieces : List DropResult :=
  [DropResult.HELM, DropResult.PAULDRONS, DropResult.CUIRASS, DropResult.GAUNTLETS,
   DropResult.LEG_GUARDS, DropResult.BOOTS]

/-- C9: when no armor piece remains in the gear state, create_buckets gives
the Armor bucket weight 0 and adds the configured armor weight to NoItem, the
total bucket weight equals the sum of the four configured weights, and
roll_item_drop never returns an armor kind, for every Random Source output. -/
theorem C9_armor_weight_redistributed (gear : List DropResult) (player : Player)
    (r : ℚ) (idx : Nat) (h : gear.filter armorFilter = []) :
    LootBucket.create_buckets player (gear.filter armorFilter)
      = [LootBucket.mk "NO_ITEM" (DROP_WEIGHT_NO_ITEM + DROP_WEIGHT_ARMOR),
         LootBucket.mk "HEALTH_POTION" DROP_WEIGHT_HEALTH_POTION,
         LootBucket.mk "ESCAPE_SCROLL" DROP_WEIGHT_ESCAPE_SCROLL,
         LootBucket.mk "ARMOR" 0]
    ∧ ((LootBucket.create_buckets player (gear.filter armorFilter)).map
          LootBucket.weight).sum
        = DROP_WEIGHT_NO_ITEM + DROP_WEIGHT_HEALTH_POTION + DROP_WEIGHT_ESCAPE_SCROLL
            + DROP_WEIGHT_ARMOR
    ∧ ∀ a ∈ armorPieces, (DropCalculator.roll_item_drop gear player r idx).1 ≠ a := by
  have e : LootBucket.create_buckets player (gear.filter armorFilter)
      = [LootBucket.mk "NO_ITEM" (DROP_WEIGHT_NO_ITEM + DROP_WEIGHT_ARMOR),
         LootBucket.mk "HEALTH_POTION" DROP_WEIGHT_HEALTH_POTION,
         LootBucket.mk "ESCAPE_SCROLL" DROP_WEIGHT_ESCAPE_SCROLL,
         LootBucket.mk "ARMOR" 0] := by
    rw [h]; rfl
  refine ⟨e, ?_, ?_⟩
  · rw [e]
    norm_num [DROP_WEIGHT_NO_ITEM, DROP_WEIGHT_HEALTH_POTION, DROP_WEIGHT_ESCAPE_SCROLL,
      DROP_WEIGHT_ARMOR]
  · intro a ha
    have key : ∀ d a : DropResult,
        d ∈ ([DropResult.NO_ITEM, DropResult.HEALTH_POTION, DropResult.ESCAPE_SCROLL] :
              List DropResult) → a ∈ armorPieces → d ≠ a := by decide
    rcases roll_item_drop_cases gear player r idx with ⟨hmem, _⟩ | ⟨hmem, _⟩
    · exact key _ _ hmem ha
    · rw [h] at hmem; simp at hmem

/-- Witness for C9: with only Shield and Sword left in the gear state, the
armor filter is empty and the theorem applies. -/
theorem C9_armor_weight_redistributed_witness :
    ([DropResult.SHIELD, DropResult.SWORD] : List DropResult).filter armorFilter = []
    ∧ (LootBucket.create_buckets basePlayer
          (([DropResult.SHIELD, DropResult.SWORD] : List DropResult).filter armorFilter)
        = [LootBucket.mk "NO_ITEM" (DROP_WEIGHT_NO_ITEM + DROP_WEIGHT_ARMOR),
           LootBucket.mk "HEALTH_POTION" DROP_WEIGHT_HEALTH_POTION,
           LootBucket.mk "ESCAPE_SCROLL" DROP_WEIGHT_ESCAPE_SCROLL,
           LootBucket.mk "ARMOR" 0]
      ∧ ((LootBucket.create_buckets basePlayer
            (([DropResult.SHIELD, DropResult.SWORD] : List DropResult).filter
              armorFilter)).map LootBucket.weight).sum
          = DROP_WEIGHT_NO_ITEM + DROP_WEIGHT_HEALTH_POTION + DROP_WEIGHT_ESCAPE_SCROLL
              + DROP_WEIGHT_ARMOR
      ∧ ∀ a ∈ armorPieces,
          (DropCalculator.roll_item_drop [DropResult.SHIELD, DropResult.SWORD]
              basePlayer 0 0).1 ≠ a) :=
  ⟨by decide,
   C9_armor_weight_redistributed [DropResult.SHIELD, DropResult.SWORD] basePlayer 0 0
     (by decide)⟩

/-! ## Health bounds invariant -/

theorem applyHealthOp_max_health (p : Player) (op : HealthOp) :
    (p.applyHealthOp op).max_health = p.max_health := by
  cases op with
  | damage raw defense => rfl
  | usePotion =>
      simp only [Player.applyHealthOp, Player.use_potion, Inventory.remove_potion]
      split_ifs <;> rfl
  | pray => rfl

theorem applyHealthOp_health_bounds (p : Player) (op : HealthOp)
    (h0 : 0 ≤ p.health) (h1 : p.health ≤ p.max_health) :
    0 ≤ (p.applyHealthOp op).health ∧ (p.applyHealthOp op).health ≤ p.max_health := by
  have hmax : (0 : Int) ≤ p.max_health := h0.trans h1
  cases op with
  | damage raw defense =>
      simp only [Player.applyHealthOp, Player.take_damage]
      refine ⟨le_max_left _ _, max_le hmax ?_⟩
      exact (sub_le_self _ (le_max_left 0 _)).trans h1
  | usePotion =>
      simp only [Player.applyHealthOp, Player.use_potion, Inventory.remove_potion]
      split_ifs <;> constructor <;> first | assumption | simp
  | pray => exact ⟨hmax, le_refl _⟩

/-- C2: for every sequence of damage applications (any integer rawDamage and
defense) interleaved with use_potion and pray_for_restoration, the player's
health stays within 0 ≤ health ≤ maxHealth, given it starts in that range. -/
theorem C2_health_invariant (p : Player) (ops : List HealthOp)
    (h0 : 0 ≤ p.health) (h1 : p.health ≤ p.max_health) :
    0 ≤ (p.applyHealthOps ops).health
      ∧ (p.applyHealthOps ops).health ≤ (p.applyHealthOps ops).max_health := by
  induction ops generalizing p with
  | nil => exact ⟨h0, h1⟩
  | cons op ops ih =>
      have step := applyHealthOp_health_bounds p op h0 h1
      have hmax := applyHealthOp_max_health p op
      have := ih (p.applyHealthOp op) step.1 (hmax ▸ step.2)
      simpa [Player.applyHealthOps, List.foldl_cons] using this

/-- Witness for C2: the injured potion-holding player starts in range and the
invariant holds after a damage, heal, damage, pray sequence. -/
theorem C2_health_invariant_witness :
    0 ≤ injuredPotionPlayer.health
    ∧ injuredPotionPlayer.health ≤ injuredPotionPlayer.max_health
    ∧ (0 ≤ (injuredPotionPlayer.applyHealthOps
              [HealthOp.damage 50 (-3), HealthOp.usePotion, HealthOp.damage 7 2,
               HealthOp.pray]).health
      ∧ (injuredPotionPlayer.applyHealthOps
              [HealthOp.damage 50 (-3), HealthOp.usePotion, HealthOp.damage 7 2,
               HealthOp.pray]).health
          ≤ (injuredPotionPlayer.applyHealthOps
              [HealthOp.damage 50 (-3), HealthOp.usePotion, HealthOp.damage 7 2,
               HealthOp.pray]).max_health) :=
  ⟨by decide, by decide,
   C2_health_invariant injuredPotionPlayer
     [HealthOp.damage 50 (-3), HealthOp.usePotion, HealthOp.damage 7 2, HealthOp.pray]
     (by decide) (by decide)⟩

/-! ## Lethal-turn frame property -/

/-- Auxiliary step for the lethal-turn property: the damage branch of
execute_combat_turn, after the ability lookup succeeded, returns the player
unchanged and no retaliation whenever the post-hit monster is at 0 health. -/
theorem lethal_branch_aux (p p2 : Player) (m2 hitm : Monster) (hd dealt : Int)
    (iw died weak : Bool) (retal ph : Option Int) (g : Int)
    (h : (if (!hitm.is_alive) = true then
            some (TurnOutcome.attacked hd true iw none none, p, hitm)
          else
            some (TurnOutcome.attacked hd false iw
                    (some (p.take_damage (hitm.attack g) p.get_defense).2)
                    (some (p.take_damage (hitm.attack g) p.get_defense).1.health),
                  (p.take_damage (hitm.attack g) p.get_defense).1, hitm))
          = some (TurnOutcome.attacked dealt died weak retal ph, p2, m2))
    (hm : m2.health = 0) : p2 = p ∧ retal = none := by
  split_ifs at h with hdied
  · simp only [Option.some.injEq, Prod.mk.injEq, TurnOutcome.attacked.injEq] at h
    obtain ⟨⟨-, -, -, hr, -⟩, hp, -⟩ := h
    exact ⟨hp.symm, hr.symm⟩
  · exfalso
    simp only [Option.some.injEq, Prod.mk.injEq] at h
    rw [h.2.2] at hdied
    simp [Monster.is_alive] at hdied
    omega

/-- C8: if executing a combat turn produces a damage-action outcome and leaves
the monster at exactly 0 health, the player is returned unchanged (health,
inventory and equipment) and no retaliation damage is recorded. -/
theorem C8_lethal_turn_no_retaliation (p p2 : Player) (m m2 : Monster) (a : Action)
    (r : ℚ) (g : Int) (dealt : Int) (died weak : Bool) (retal ph : Option Int)
    (h : CombatEngine.execute_combat_turn p m a r g
          = some (TurnOutcome.attacked dealt died weak retal ph, p2, m2))
    (hm : m2.health = 0) :
    p2 = p ∧ retal = none := by
  cases a
  case USE_POTION => simp [CombatEngine.execute_combat_turn] at h
  case FLEE => simp [CombatEngine.execute_combat_turn] at h
  case HOLY_SMITE =>
    simp only [CombatEngine.execute_combat_turn, Player.abilities] at h
    exact lethal_branch_aux p p2 m2 _ _ dealt _ died weak retal ph g h hm
  case SWORD_SLASH =>
    by_cases hsw : p.has_sword
    · simp only [CombatEngine.execute_combat_turn, Player.abilities, hsw, if_true] at h
      exact lethal_branch_aux p p2 m2 _ _ dealt _ died weak retal ph g h hm
    · simp [CombatEngine.execute_combat_turn, Player.abilities, hsw] at h
  case SHIELD_BASH =>
    by_cases hsh : p.has_shield
    · simp only [CombatEngine.execute_combat_turn, Player.abilities, hsh, if_true] at h
      exact lethal_branch_aux p p2 m2 _ _ dealt _ died weak retal ph g h hm
    · simp [CombatEngine.execute_combat_turn, Player.abilities, hsh] at h

/-- Witness for C8: a Holy Smite kills the fragile monster exactly (health
clamped to 0) and the theorem applies: the player is unchanged. -/
theorem C8_lethal_turn_no_retaliation_witness :
    CombatEngine.execute_combat_turn basePlayer fragileMonster Action.HOLY_SMITE 0 0
        = some (TurnOutcome.attacked 12 true false none none, basePlayer, fragileMonsterDead)
    ∧ fragileMonsterDead.health = 0
    ∧ (basePlayer = basePlayer ∧ (none : Option Int) = none) :=
  ⟨by decide, rfl,
   C8_lethal_turn_no_retaliation basePlayer basePlayer fragileMonster fragileMonsterDead
     Action.HOLY_SMITE 0 0 12 true false none none (by decide) rfl⟩

/-! ## Weighted random selection vs its specification -/

theorem selectLoop_eq_firstLabel (options : List WeightedOption) (rv cum : ℚ) (fb : String) :
    selectLoop options rv cum fb = (firstLabelWithCumGe options cum rv).getD fb := by
  induction options generalizing cum with
  | nil => rfl
  | cons o rest ih =>
      simp only [selectLoop, firstLabelWithCumGe, ge_iff_le]
      split_ifs with hle
      · rfl
      · exact ih (cum + o.weight)

theorem firstLabel_isSome (options : List WeightedOption) (cum rv : ℚ)
    (hne : options ≠ [])
    (hle : rv ≤ cum + (options.map WeightedOption.weight).sum) :
    (firstLabelWithCumGe options cum rv).isSome = true := by
  induction options generalizing cum with
  | nil => exact absurd rfl hne
  | cons o rest ih =>
      simp only [firstLabelWithCumGe, ge_iff_le]
      split_ifs with hcond
      · rfl
      · cases rest with
        | nil =>
            exfalso
            apply hcond
            simpa using hle
        | cons o2 rest2 =>
            apply ih (cum + o.weight) (by simp)
            simp only [List.map_cons, List.sum_cons] at hle ⊢
            linarith

/-- C7: for every non-empty list of options with non-negative weights and
every uniform draw r from [0,1): when the total weight is ≤ 0 the selection
returns the last label; otherwise it returns the first label in list order
whose cumulative weight reaches r × total (the spec-side description
firstLabelWithCumGe). -/
theorem C7_select_weighted_random_spec (options : List WeightedOption) (r : ℚ)
    (hne : options ≠ []) (hw : ∀ o ∈ options, 0 ≤ o.weight) (hr0 : 0 ≤ r) (hr1 : r < 1) :
    ((options.map WeightedOption.weight).sum ≤ 0 →
        select_weighted_random options r = some (options.getLast hne).label)
    ∧ (0 < (options.map WeightedOption.weight).sum →
        select_weighted_random options r
          = firstLabelWithCumGe options 0 (r * (options.map WeightedOption.weight).sum)) := by
  constructor
  · intro htot
    simp only [select_weighted_random, List.getLast?_eq_getLast _ hne]
    rw [if_pos htot]
  · intro htot
    simp only [select_weighted_random, List.getLast?_eq_getLast _ hne]
    rw [if_neg (not_le.mpr htot)]
    rw [selectLoop_eq_firstLabel]
    have hrt : r * (options.map WeightedOption.weight).sum
        ≤ 0 + (options.map WeightedOption.weight).sum := by
      rw [zero_add]
      exact mul_le_of_le_one_left (le_of_lt htot) (le_of_lt hr1)
    have hs := firstLabel_isSome options 0 (r * (options.map WeightedOption.weight).sum)
      hne hrt
    obtain ⟨l, hl⟩ := Option.isSome_iff_exists.mp hs
    rw [hl]
    rfl

/-- The loot-table example from the docstring of utils.select_weighted_random. -/
def exampleOptions : List WeightedOption :=
  [WeightedOption.mk "common" 10, WeightedOption.mk "rare" 4, WeightedOption.mk "epic" 1]

/-- Witness for C7: the docstring example options with draw r = 1/3 satisfy
every hypothesis and the theorem applies. -/
theorem C7_select_weighted_random_spec_witness :
    exampleOptions ≠ [] ∧ (∀ o ∈ exampleOptions, 0 ≤ o.weight)
    ∧ 0 ≤ (1/3 : ℚ) ∧ (1/3 : ℚ) < 1
    ∧ (((exampleOptions.map WeightedOption.weight).sum ≤ 0 →
          select_weighted_random exampleOptions (1/3)
            = some ((exampleOptions.getLast (by simp [exampleOptions])).label))
      ∧ (0 < (exampleOptions.map WeightedOption.weight).sum →
          select_weighted_random exampleOptions (1/3)
            = firstLabelWithCumGe exampleOptions 0
                ((1/3 : ℚ) * (exampleOptions.map WeightedOption.weight).sum))) :=
  ⟨by simp [exampleOptions], by norm_num [exampleOptions], by norm_num, by norm_num,
   C7_select_weighted_random_spec exampleOptions (1/3) (by simp [exampleOptions])
     (by norm_num [exampleOptions]) (by norm_num) (by norm_num)⟩

/-! ## Unique gear scarcity across call sequences -/

/-- Every single calculator call either returns a consumable (or NO_ITEM)
leaving the gear state unchanged, or returns an element of the gear state and
erases it. -/
theorem step_cases (gear : List DropResult) (op : DropOp) :
    ((DropCalculator.step gear op).1
        ∈ [DropResult.NO_ITEM, DropResult.HEALTH_POTION, DropResult.ESCAPE_SCROLL]
      ∧ (DropCalculator.step gear op).2 = gear)
    ∨ ((DropCalculator.step gear op).1 ∈ gear
      ∧ (DropCalculator.step gear op).2 = gear.erase (DropCalculator.step gear op).1) := by
  cases op with
  | roll player r idx =>
      rcases roll_item_drop_cases gear player r idx with ⟨h1, h2⟩ | ⟨h1, h2⟩
      · exact Or.inl ⟨h1, h2⟩
      · exact Or.inr ⟨List.mem_of_mem_filter h1, h2⟩
  | getDrop d player r idx =>
      simp only [DropCalculator.step, DropCalculator.get_drop_for_monster]
      split_ifs with hc1 hc2
      · refine Or.inr ⟨?_, rfl⟩
        simp only [Bool.and_eq_true] at hc1
        exact List.mem_of_elem_eq_true hc1.2
      · refine Or.inr ⟨?_, rfl⟩
        simp only [Bool.and_eq_true] at hc2
        exact List.mem_of_elem_eq_true hc2.2
      · rcases roll_item_drop_cases gear player r idx with ⟨h1, h2⟩ | ⟨h1, h2⟩
        · exact Or.inl ⟨h1, h2⟩
        · exact Or.inr ⟨List.mem_of_mem_filter h1, h2⟩

/-- A result absent from the current gear state (and not a consumable) is
never emitted by any later call and never re-enters the gear state. -/
theorem run_not_mem (ops : List DropOp) (gear : List DropResult) (g : DropResult)
    (hcons : g ∉ ([DropResult.NO_ITEM, DropResult.HEALTH_POTION, DropResult.ESCAPE_SCROLL] :
        List DropResult))
    (hg : g ∉ gear) :
    g ∉ (DropCalculator.run gear ops).1 ∧ g ∉ (DropCalculator.run gear ops).2 := by
  induction ops generalizing gear with
  | nil => exact ⟨by simp [DropCalculator.run], by simpa [DropCalculator.run] using hg⟩
  | cons op ops ih =>
      have hstep : (DropCalculator.step gear op).1 ≠ g ∧ g ∉ (DropCalculator.step gear op).2 := by
        rcases step_cases gear op with ⟨h1, h2⟩ | ⟨h1, h2⟩
        · exact ⟨fun he => hcons (he ▸ h1), by rw [h2]; exact hg⟩
        · refine ⟨fun he => hg (he ▸ h1), ?_⟩
          rw [h2]
          exact fun hmem => hg (List.mem_of_mem_erase hmem)
      have hrest := ih (DropCalculator.step gear op).2 hstep.2
      refine ⟨?_, ?_⟩
      · simp only [DropCalculator.run, List.mem_cons, not_or]
        exact ⟨fun he => hstep.1 he.symm, hrest.1⟩
      · simpa [DropCalculator.run] using hrest.2

/-- Under a duplicate-free gear state, any fixed non-consumable result appears
at most once in the outputs of an arbitrary call sequence. -/
theorem run_count_le_one (ops : List DropOp) (gear : List DropResult) (g : DropResult)
    (hnd : gear.Nodup)
    (hcons : g ∉ ([DropResult.NO_ITEM, DropResult.HEALTH_POTION, DropResult.ESCAPE_SCROLL] :
        List DropResult)) :
    ((DropCalculator.run gear ops).1).count g ≤ 1 := by
  induction ops generalizing gear with
  | nil => simp [DropCalculator.run]
  | cons op ops ih =>
      have hnd2 : (DropCalculator.step gear op).2.Nodup := by
        rcases step_cases gear op with ⟨-, h2⟩ | ⟨-, h2⟩
        · rw [h2]; exact hnd
        · rw [h2]; exact hnd.erase _
      by_cases he : (DropCalculator.step gear op).1 = g
      · have hin : g ∈ gear := by
          rcases step_cases gear op with ⟨h1, -⟩ | ⟨h1, -⟩
          · exact absurd (he ▸ h1) hcons
          · exact he ▸ h1
        have hnot2 : g ∉ (DropCalculator.step gear op).2 := by
          rcases step_cases gear op with ⟨h1, -⟩ | ⟨-, h2⟩
          · exact absurd (he ▸ h1) hcons
          · rw [h2, ← he]
            intro hmem
            exact (hnd.mem_erase_iff.mp hmem).1 rfl
        have hrest := (run_not_mem ops _ g hcons hnot2).1
        simp only [DropCalculator.run, List.count_cons, he]
        simp [List.count_eq_zero.mpr hrest]
      · simp only [DropCalculator.run]
        simp [List.count_cons, he]
        simpa using ih _ hnd2

/-- C3: starting from a fresh DropCalculator, each of the 8 unique-gear kinds
is returned at most once across any finite sequence of roll_item_drop and
get_drop_for_monster calls, for any Random Source outputs and player states. -/
theorem C3_unique_gear_at_most_once (ops : List DropOp) (g : DropResult)
    (hg : g ∈ DropResult.unique_gear) :
    ((DropCalculator.run DropResult.unique_gear ops).1).count g ≤ 1 := by
  have hcons : ∀ x ∈ DropResult.unique_gear,
      x ∉ ([DropResult.NO_ITEM, DropResult.HEALTH_POTION, DropResult.ESCAPE_SCROLL] :
        List DropResult) := by decide
  exact run_count_le_one ops DropResult.unique_gear g (by decide) (hcons g hg)

/-- Witness for C3: Shield is unique gear, and across a scripted-unlock call
followed by two rolls it is counted at most once. -/
theorem C3_unique_gear_at_most_once_witness :
    DropResult.SHIELD ∈ DropResult.unique_gear
    ∧ ((DropCalculator.run DropResult.unique_gear
          [DropOp.getDrop 0 basePlayer 0 0, DropOp.roll basePlayer 0 0,
           DropOp.roll basePlayer (99/100) 3]).1).count DropResult.SHIELD ≤ 1 :=
  ⟨by decide,
   C3_unique_gear_at_most_once
     [DropOp.getDrop 0 basePlayer 0 0, DropOp.roll basePlayer 0 0,
      DropOp.roll basePlayer (99/100) 3] DropResult.SHIELD (by decide)⟩

end Game
